import Mathlib

/-!
# A shallow embedding of the RecyclerListView coordinator

This file embeds the coordinator component (`src/core/RecyclerListView.tsx`) of
the recyclerlistview repository into Lean 4 and proves properties of the
embedded operations.  JavaScript numbers are modelled as integers (`ℤ`) —
every operation the embedded code performs on them (addition, subtraction,
`Math.min`, maxima, comparisons) is closed over the integers — array
indices as integers, thrown exceptions as `Except`, and the
mutable fields of the component instance as an explicit state record that is
threaded through the operations.  Collaborator classes that are not part of
the source tree (LayoutManager, LayoutProvider, DataProvider, the virtual
renderer's viewability tracker, the context provider, lodash's debounce) are
modelled from the specification's description of their contracts; each such
definition carries a doc comment saying so.
-/

set_option autoImplicit false

namespace Recycler

/-- A width/height pair, as in `Dimension` of `LayoutProvider`. -/
structure Dimension where
  height : ℤ
  width : ℤ
deriving DecidableEq, Repr

/-- A laid-out rectangle, as in `Rect` of `LayoutManager`:
position and size in layout-axis units. -/
structure Rect where
  x : ℤ
  y : ℤ
  height : ℤ
  width : ℤ
deriving DecidableEq, Repr

/-- A JavaScript value of type `string | number | null | undefined`, the type
that the layout-type oracle can return for an index. -/
inductive JSVal where
  | str : String → JSVal
  | num : ℤ → JSVal
  | nullv : JSVal
  | undef : JSVal
deriving DecidableEq, Repr

/-- JavaScript truthiness for a `string | number | null | undefined` value:
the empty string, the number 0, `null` and `undefined` are falsy. -/
def JSVal.truthy : JSVal → Bool
  | .str s => s ≠ ""
  | .num q => q ≠ 0
  | .nullv => false
  | .undef => false

/-- The exception kinds the coordinator can raise: the named
`RecyclerListViewExceptions`, plus the implicit `TypeError` a JavaScript
runtime raises when a member of `null`/`undefined` is accessed. -/
inductive ErrKind where
  | layoutException
  | unresolvedDependenciesException
  | itemTypeNullException
  | outOfRange
  | jsTypeError
deriving DecidableEq, Repr

/-- Modelled from the spec: the type/size oracle (`LayoutProvider`, not under
`src/`): `typeOf(index) → LayoutType` and `sizeOf(type, index) → Size`
(`getLayoutTypeForIndex` and `setLayoutForType` in the code; the latter
overwrites the dimension object it is handed with the declared size). -/
structure LayoutProviderM where
  ref : ℕ
  getLayoutTypeForIndex : ℤ → JSVal
  sizeForType : JSVal → ℤ → Dimension

/-- Modelled from the spec: the item data source (`DataProvider`, not under
`src/`): `size()`, `item(index)`, and `firstDirtyIndex()`
(`getFirstIndexToProcessInternal` in the code).  Item values are opaque. -/
structure DataProviderM where
  ref : ℕ
  size : ℤ
  dataForIndex : ℤ → ℕ
  firstIndexToProcessInternal : ℤ

/-- The props of the component that the embedded operations read.  The two
required collaborators are optional here because
`_assertDependencyPresence` checks for their absence.  `contextKey` models
`contextProvider.getUniqueKey()` (`none` = no context provider). -/
structure Props where
  dataProvider : Option DataProviderM
  layoutProvider : Option LayoutProviderM
  isHorizontal : Bool
  forceNonDeterministicRendering : Bool
  onEndReachedPresent : Bool
  onEndReachedThreshold : ℤ
  onVisibleIndexesChangedPresent : Bool
  onScrollPresent : Bool
  initialOffset : ℤ
  initialRenderIndex : ℤ
  renderAheadOffset : ℤ
  contextKey : Option String

/-- Modelled from the spec: the Layout Engine (`LayoutManager`, not under
`src/`).  It owns the Layout array.  The geometric recomputation performed by
`reLayoutFromIndex` and the per-index override are abstracted: the model
records every invocation together with its arguments, which is what the
coordinator-level claims constrain. -/
structure LayoutManagerM where
  layouts : List Rect
  isHorizontal : Bool
  containerDim : Dimension
  relayoutLog : List (ℤ × ℤ)
  overrideLog : List (ℤ × Dimension)

/-- Modelled from the spec: constructing a Layout Engine with a cached Layout
array imports it verbatim, skipping recomputation (spec §4.2 Persistence);
with no cache the engine starts with no laid-out rectangles. -/
def LayoutManagerM.new (_provider : LayoutProviderM) (dim : Dimension)
    (isHorizontal : Bool) (cachedLayouts : Option (List Rect)) : LayoutManagerM :=
  { layouts := cachedLayouts.getD []
    isHorizontal := isHorizontal
    containerDim := dim
    relayoutLog := []
    overrideLog := [] }

/-- Modelled from the spec: `overrideLayout(index, newSize)` marks the index
overridden and stores the size; recomputation is deferred (spec §4.2). -/
def LayoutManagerM.overrideLayout (lm : LayoutManagerM) (index : ℤ)
    (dim : Dimension) : LayoutManagerM :=
  { lm with overrideLog := lm.overrideLog ++ [(index, dim)] }

/-- Modelled from the spec: `reLayoutFromIndex(startIndex, itemCount)`
performs a suffix recompute from `startIndex` (spec §4.2); the model records
the call. -/
def LayoutManagerM.reLayoutFromIndex (lm : LayoutManagerM) (startIndex : ℤ)
    (itemCount : ℤ) : LayoutManagerM :=
  { lm with relayoutLog := lm.relayoutLog ++ [(startIndex, itemCount)] }

/-- Modelled from the spec: `getOffsetForIndex(index)` returns the
rectangle's origin and fails with `OutOfRange` if `index ≥ itemCount` or
`index < 0` (spec §4.2). -/
def LayoutManagerM.getOffsetForIndex (lm : LayoutManagerM) (index : ℤ) :
    Except ErrKind (ℤ × ℤ) :=
  if h : 0 ≤ index ∧ index.toNat < lm.layouts.length then
    let r := lm.layouts.get ⟨index.toNat, h.2⟩
    .ok (r.x, r.y)
  else
    .error .outOfRange

/-- Modelled from the spec: `setMaxBounds` bounds a requested dimension
against the maximum allowed for the layout: on a vertical list the width is
capped by the container width, on a horizontal list the height is capped by
the container height (the oracle-declared size versus the maximum rectangle
size usable for the type, spec §4.2). -/
def LayoutManagerM.setMaxBounds (lm : LayoutManagerM) (d : Dimension) : Dimension :=
  if lm.isHorizontal then
    { d with height := min lm.containerDim.height d.height }
  else
    { d with width := min lm.containerDim.width d.width }

/-- Modelled from the spec: `getLayoutDimension()` returns the bounding size
over all laid-out rectangles — the scrollable content extent (spec §4.2). -/
def LayoutManagerM.getLayoutDimension (lm : LayoutManagerM) : Dimension :=
  { height := (lm.layouts.map (fun r => r.y + r.height)).foldl max 0
    width := (lm.layouts.map (fun r => r.x + r.width)).foldl max 0 }

/-- A rendered-row description handed to the rendering leaf (the props of the
`ViewRenderer` element built by `_renderRowUsingMeta`). -/
structure RowOutput where
  key : ℕ
  data : ℕ
  x : ℤ
  y : ℤ
  layoutType : JSVal
  index : ℤ
  height : ℤ
  width : ℤ
deriving DecidableEq, Repr

/-- One entry of the render stack (`RenderStackItem`): a stable key and the
data index the slot is currently bound to (`none` models `undefined`). -/
structure RenderStackItem where
  key : ℕ
  dataIndex : Option ℤ
deriving DecidableEq, Repr

/-- One visibility emission: the three ordered index lists
`(all, now, notNow)` passed to the visible-items listener. -/
structure VisEmit where
  all : List ℤ
  now : List ℤ
  notNow : List ℤ
deriving DecidableEq, Repr

/-- The mutable fields of the coordinator instance (plus logs of the
externally observable callbacks it performs).  The viewability tracker owned
by the virtual renderer is flattened into the fields `trackerLastOffset`,
`trackerVisible` and `trackerStarted`, modelled from spec §4.3. -/
structure CoordState where
  layout : Dimension
  tempDim : Dimension
  initComplete : Bool
  relayoutReqIndex : ℤ
  onEndReachedCalled : Bool
  initialOffsetVar : ℤ
  cachedLayouts : Option (List Rect)
  layoutManager : Option LayoutManagerM
  trackerLastOffset : ℤ
  trackerVisible : List ℤ
  trackerRequired : List ℤ
  trackerStarted : Bool
  listenerAttached : Bool
  paramsItemCount : ℤ
  paramsIsHorizontal : Bool
  paramsInitialOffset : ℤ
  paramsInitialRenderIndex : ℤ
  paramsRenderAhead : ℤ
  pendingScrollToOffset : Option (ℤ × ℤ)
  visibilityEmissions : List VisEmit
  endReachedFires : ℕ
  scrollCommands : List (ℤ × ℤ × Bool)
  debouncerCalls : ℕ
  refreshes : ℕ
  anchorRefreshes : ℕ

/-- The `Math.min` fold used for the pending re-layout cursor
(`_relayoutReqIndex`, sentinel `-1`): first write stores the index, later
writes keep the minimum. -/
def updateCursor (cursor index : ℤ) : ℤ :=
  if cursor = -1 then index else min cursor index

/-- Embeds `_assertType`: throws `itemTypeNullException` when the type is falsy and
not strictly equal to the number 0 (`!type && type !== 0`). -/
def assertType (t : JSVal) : Except ErrKind Unit :=
  if ¬t.truthy ∧ t ≠ .num 0 then .error .itemTypeNullException else .ok ()

/-- Embeds `_assertDependencyPresence`: throws when either required collaborator is
missing from the props. -/
def assertDependencyPresence (props : Props) : Except ErrKind Unit :=
  if props.dataProvider.isNone || props.layoutProvider.isNone then
    .error .unresolvedDependenciesException
  else
    .ok ()

/-- Read a JavaScript array at a possibly negative or out-of-range index:
the result of `arr[i]` is `undefined` (`none`) outside the bounds. -/
def jsIndex {α : Type} (l : List α) (i : ℤ) : Option α :=
  if h : 0 ≤ i ∧ i.toNat < l.length then some (l.get ⟨i.toNat, h.2⟩) else none

/-- The width/height part of a laid-out rectangle (structural use of a
`Rect` where a `Dimension` is expected). -/
def Rect.dim (r : Rect) : Dimension :=
  { height := r.height, width := r.width }

/-- Embeds `_queueStateRefresh`: queues a state refresh through the shared
debouncer; the model counts the requests handed to the debouncer (the
debouncer itself is modelled separately, see `lodashDebounceStep`). -/
def queueStateRefresh (st : CoordState) : CoordState :=
  { st with debouncerCalls := st.debouncerCalls + 1 }

/-- Embeds `_refreshViewability`: re-runs reconciliation against the current window
state and queues a debounced state refresh. -/
def refreshViewability (st : CoordState) : CoordState :=
  queueStateRefresh { st with refreshes := st.refreshes + 1 }

/-- Embeds `_checkExpectedDimensionDiscrepancy`: recomputes `_tempDim` as the
max-bounded declared size for `type` and `index`, then sets the pending
re-layout cursor (to the minimum with its current value) exactly when the
laid-out rectangle differs from that size in height or width. -/
def checkExpectedDimensionDiscrepancy (props : Props) (st : CoordState)
    (itemRect : Dimension) (t : JSVal) (index : ℤ) : Except ErrKind CoordState :=
  match st.layoutManager, props.layoutProvider with
  | some lm, some lp =>
    let _tempDim1 := lm.setMaxBounds st.tempDim
    let tempDim2 := lp.sizeForType t index
    let tempDim3 := lm.setMaxBounds tempDim2
    let st := { st with tempDim := tempDim3 }
    if itemRect.height ≠ tempDim3.height ∨ itemRect.width ≠ tempDim3.width then
      .ok { st with relayoutReqIndex := updateCursor st.relayoutReqIndex index }
    else
      .ok st
  | _, _ => .error .jsTypeError

/-- Embeds `_onViewContainerSizeChange`: forwards the measured size to the layout
engine's override, records the lowest affected index in the pending
re-layout cursor, and queues a debounced state refresh. -/
def onViewContainerSizeChange (st : CoordState) (dim : Dimension) (index : ℤ) :
    Except ErrKind CoordState :=
  match st.layoutManager with
  | none => .error .jsTypeError
  | some lm =>
    let st := { st with layoutManager := some (lm.overrideLayout index dim) }
    let st := { st with relayoutReqIndex := updateCursor st.relayoutReqIndex index }
    .ok (queueStateRefresh st)

/-- Embeds `_renderRowUsingMeta`: renders one render-stack entry, or returns `null`
(`none`) when `dataIndex` is falsy (`undefined` or `0`) or not strictly below
the data-source size.  On the rendering path it asserts the layout type and,
when deterministic rendering is on, runs the dimension-discrepancy check. -/
def renderRowUsingMeta (props : Props) (st : CoordState)
    (itemMeta : RenderStackItem) : Except ErrKind (CoordState × Option RowOutput) :=
  match props.dataProvider, props.layoutProvider with
  | some dp, some lp =>
    let dataSize := dp.size
    match itemMeta.dataIndex with
    | none => .ok (st, none)
    | some i =>
      if i ≠ 0 ∧ i < dataSize then
        match st.layoutManager with
        | none => .error .jsTypeError
        | some lm =>
          match jsIndex lm.layouts i with
          | none => .error .jsTypeError
          | some itemRect => do
            let data := dp.dataForIndex i
            let t := lp.getLayoutTypeForIndex i
            let _ ← assertType t
            let st ← (if ¬props.forceNonDeterministicRendering then
                checkExpectedDimensionDiscrepancy props st itemRect.dim t i
              else .ok st)
            .ok (st, some { key := itemMeta.key, data := data, x := itemRect.x,
                            y := itemRect.y, layoutType := t, index := i,
                            height := itemRect.height, width := itemRect.width })
      else
        .ok (st, none)
  | _, _ => .error .jsTypeError

/-- The leading edge of a rectangle along the primary scroll axis. -/
def rectEdgeStart (horiz : Bool) (r : Rect) : ℤ :=
  if horiz then r.x else r.y

/-- A rectangle's extent along the primary scroll axis. -/
def rectEdgeExtent (horiz : Bool) (r : Rect) : ℤ :=
  if horiz then r.width else r.height

/-- Modelled from the spec: a rectangle strictly intersects the viewport
`[offset, offset + viewport]` (spec §3, visible index set). -/
def rectStrictlyVisible (horiz : Bool) (offset viewport : ℤ) (r : Rect) : Bool :=
  decide (rectEdgeStart horiz r < offset + viewport) &&
  decide (offset < rectEdgeStart horiz r + rectEdgeExtent horiz r)

/-- Modelled from the spec: the visible index set — the ordered list of
indices whose rectangles strictly intersect the viewport (spec §3). -/
def visibleIndices (layouts : List Rect) (horiz : Bool) (offset viewport : ℤ) :
    List ℤ :=
  (layouts.enum.filter (fun p => rectStrictlyVisible horiz offset viewport p.2)).map
    (fun p => (p.1 : ℤ))

/-- Modelled from the spec: the required index set — indices whose rectangles
intersect the viewport extended by the render-ahead margin on both sides
(spec §3, with the back margin taken equal to the render-ahead distance). -/
def requiredIndices (layouts : List Rect) (horiz : Bool)
    (offset viewport renderAhead : ℤ) : List ℤ :=
  (layouts.enum.filter (fun p =>
      decide (rectEdgeStart horiz p.2 < offset + viewport + renderAhead) &&
      decide (offset - renderAhead < rectEdgeStart horiz p.2 + rectEdgeExtent horiz p.2))).map
    (fun p => (p.1 : ℤ))

/-- Order-insensitive equality of two index lists (spec §4.3: set equality by
index). -/
def sameIndexSet (a b : List ℤ) : Bool :=
  a.all (fun i => b.contains i) && b.all (fun i => a.contains i)

/-- The Layout array of the current layout engine (empty when no engine has
been created yet). -/
def CoordState.lmLayouts (st : CoordState) : List Rect :=
  (st.layoutManager.map (fun lm => lm.layouts)).getD []

/-- The viewport extent along the primary scroll axis. -/
def viewportExtent (st : CoordState) : ℤ :=
  if st.paramsIsHorizontal then st.layout.width else st.layout.height

/-- Modelled from the spec: `VirtualRenderer.updateOffset` → viewability
tracker update (spec §4.1 `onScroll` and §4.3): store the new offset,
recompute the required and visible index sets, and invoke the visibility
observer with `(all, now, notNow)` exactly when a listener is attached and
the new visible set differs (as a set) from the previous one. -/
def updateOffset (st : CoordState) (x y : ℤ) : CoordState :=
  let offset := if st.paramsIsHorizontal then x else y
  let newVisible := visibleIndices st.lmLayouts st.paramsIsHorizontal offset (viewportExtent st)
  let newRequired := requiredIndices st.lmLayouts st.paramsIsHorizontal offset
    (viewportExtent st) st.paramsRenderAhead
  let emits :=
    if st.listenerAttached && !sameIndexSet newVisible st.trackerVisible then
      st.visibilityEmissions ++
        [{ all := newVisible,
           now := newVisible.filter (fun i => !st.trackerVisible.contains i),
           notNow := st.trackerVisible.filter (fun i => !newVisible.contains i) }]
    else
      st.visibilityEmissions
  { st with trackerLastOffset := offset, trackerVisible := newVisible,
            trackerRequired := newRequired, visibilityEmissions := emits }

/-- The scrollable content extent reported by the virtual renderer
(`getLayoutDimension`), `0 × 0` before a layout engine exists. -/
def layoutDimensionS (st : CoordState) : Dimension :=
  match st.layoutManager with
  | some lm => lm.getLayoutDimension
  | none => { height := 0, width := 0 }

/-- Embeds `_processOnEndReached`: fires `onEndReached` when the distance from the
content extent to the last scroll offset is at most the threshold and the
latch is clear; sets the latch on firing and clears it when the distance is
strictly above the threshold. -/
def processOnEndReached (props : Props) (st : CoordState) : CoordState :=
  if props.onEndReachedPresent then
    let layoutDim := layoutDimensionS st
    let windowBound :=
      if props.isHorizontal then layoutDim.width - st.layout.width
      else layoutDim.height - st.layout.height
    let lastOffset := st.trackerLastOffset
    if windowBound - lastOffset ≤ props.onEndReachedThreshold then
      if ¬st.onEndReachedCalled then
        { st with onEndReachedCalled := true, endReachedFires := st.endReachedFires + 1 }
      else st
    else
      { st with onEndReachedCalled := false }
  else st

/-- Embeds `_onScroll`: update the tracker offset (recomputing the window sets and
possibly emitting a visibility delta), invoke the external scroll callback
(no coordinator state effect), then process the end-reached latch. -/
def onScroll (props : Props) (st : CoordState) (offsetX offsetY : ℤ) : CoordState :=
  let st := updateOffset st offsetX offsetY
  processOnEndReached props st

/-- Embeds `_checkAndChangeLayouts`: refreshes params, then (1) on a forced full
render / layout-provider change / orientation change installs a fresh layout
engine and refreshes with anchoring, (2) on a data-provider change re-lays
out from the provider's first dirty index, (3) otherwise flushes a pending
re-layout cursor by re-laying out from it and resetting it to `-1`.
Provider identity (`!==`) is compared through the `ref` tags. -/
def checkAndChangeLayouts (oldProps newProps : Props) (forceFullRender : Bool)
    (st : CoordState) : Except ErrKind CoordState :=
  match newProps.dataProvider, newProps.layoutProvider with
  | some dp, some lp =>
    let st := { st with paramsIsHorizontal := newProps.isHorizontal,
                        paramsItemCount := dp.size }
    if forceFullRender = true
        ∨ (oldProps.layoutProvider.map (fun p => p.ref)) ≠ (newProps.layoutProvider.map (fun p => p.ref))
        ∨ oldProps.isHorizontal ≠ newProps.isHorizontal then
      let st := { st with
        layoutManager := some (LayoutManagerM.new lp st.layout newProps.isHorizontal none) }
      .ok { st with anchorRefreshes := st.anchorRefreshes + 1 }
    else if (oldProps.dataProvider.map (fun p => p.ref)) ≠ (newProps.dataProvider.map (fun p => p.ref)) then
      match st.layoutManager with
      | some lm =>
        let st := { st with
          layoutManager := some (lm.reLayoutFromIndex dp.firstIndexToProcessInternal dp.size) }
        .ok { st with refreshes := st.refreshes + 1 }
      | none => .ok st
    else if st.relayoutReqIndex ≥ 0 then
      match st.layoutManager with
      | some lm =>
        let st := { st with
          layoutManager := some (lm.reLayoutFromIndex st.relayoutReqIndex dp.size) }
        let st := { st with relayoutReqIndex := -1 }
        .ok (refreshViewability st)
      | none => .ok st
    else
      .ok st
  | _, _ => .error .jsTypeError

/-- Modelled from the spec: `VirtualRenderer.getInitialOffset` — `init()`
starts either at an explicit initial index (resolved to that rectangle's
origin) or at an explicit initial offset along the scroll axis (spec §4.1). -/
def initialOffsetS (st : CoordState) : ℤ × ℤ :=
  if st.paramsInitialRenderIndex ≠ 0 then
    match jsIndex st.lmLayouts st.paramsInitialRenderIndex with
    | some r => (r.x, r.y)
    | none => (0, 0)
  else if st.paramsIsHorizontal then (st.paramsInitialOffset, 0)
  else (0, st.paramsInitialOffset)

/-- Embeds `_initTrackers`: asserts the collaborators, attaches the visibility
listener when requested, rebuilds the params, installs a layout engine seeded
with any cached Layout array, resolves the initial offset (either scheduling
a pending scroll or starting the viewability tracker), and finally drops the
layout cache. -/
def initTrackers (props : Props) (st : CoordState) : Except ErrKind CoordState := do
  let _ ← assertDependencyPresence props
  match props.dataProvider, props.layoutProvider with
  | some dp, some lp =>
    let st :=
      if props.onVisibleIndexesChangedPresent then { st with listenerAttached := true } else st
    let st := { st with
      paramsInitialOffset :=
        if props.initialOffset ≠ 0 then props.initialOffset else st.initialOffsetVar,
      paramsInitialRenderIndex := props.initialRenderIndex,
      paramsIsHorizontal := props.isHorizontal,
      paramsItemCount := dp.size,
      paramsRenderAhead := props.renderAheadOffset }
    let st := { st with
      layoutManager := some (LayoutManagerM.new lp st.layout props.isHorizontal st.cachedLayouts) }
    let offset := initialOffsetS st
    let st :=
      if offset.2 > 0 ∨ offset.1 > 0 then { st with pendingScrollToOffset := some offset }
      else { st with trackerStarted := true }
    .ok { st with cachedLayouts := none }
  | _, _ => .error .jsTypeError

/-- Embeds `_onSizeChanged`: records the new viewport, throws `layoutException` when
either dimension is `0`, runs first-time initialization on the first call,
and otherwise either forces a full layout change (when the changed dimension
matters for the scroll orientation) or merely refreshes viewability. -/
def onSizeChanged (props : Props) (st : CoordState) (layout : Dimension) :
    Except ErrKind CoordState :=
  let hasHeightChanged := st.layout.height ≠ layout.height
  let hasWidthChanged := st.layout.width ≠ layout.width
  let st := { st with layout := layout }
  if layout.height = 0 ∨ layout.width = 0 then
    .error .layoutException
  else if st.initComplete = false then do
    let st := { st with initComplete := true }
    let st ← initTrackers props st
    .ok (processOnEndReached props st)
  else
    if (hasHeightChanged ∧ hasWidthChanged)
        ∨ (hasHeightChanged ∧ props.isHorizontal = true)
        ∨ (hasWidthChanged ∧ props.isHorizontal = false) then
      checkAndChangeLayouts props props true st
    else
      .ok (refreshViewability st)

/-- Embeds `scrollToOffset`: forwards the command to the scroll component (modelled
as a log of issued scroll commands; the scroll component is mounted). -/
def scrollToOffset (st : CoordState) (x y : ℤ) (animate : Bool) : CoordState :=
  { st with scrollCommands := st.scrollCommands ++ [(x, y, animate)] }

/-- Embeds `scrollToIndex`: resolves the index to an origin through the layout
engine and scrolls there; an `OutOfRange` failure propagates to the caller,
returned here alongside the state as of the aborted call (the lookup
precedes every state effect, so that state is the input state). -/
def scrollToIndex (st : CoordState) (index : ℤ) (animate : Bool) :
    CoordState × Option ErrKind :=
  match st.layoutManager with
  | some lm =>
    match lm.getOffsetForIndex index with
    | .ok offsets => (scrollToOffset st offsets.1 offsets.2 animate, none)
    | .error e => (st, some e)
  | none => (st, none)

/-- Embeds `scrollToEnd`: scrolls to the last data index. -/
def scrollToEnd (props : Props) (st : CoordState) (animate : Bool) :
    CoordState × Option ErrKind :=
  match props.dataProvider with
  | some dp => scrollToIndex st (dp.size - 1) animate
  | none => (st, some .jsTypeError)

/-- A JSON document, the parse tree of a serialized string.  The model works
at the document level: `JSON.stringify` maps a value to its document and
`JSON.parse` maps the document back (the character-level rendering, which
round-trips exactly, is elided). -/
inductive Json where
  | num : ℤ → Json
  | str : String → Json
  | arr : List Json → Json
  | obj : List (String × Json) → Json
  | nullv : Json

/-- A value held by the context provider's store: the saved scroll offset is
a number, the saved layout cache is a string whose characters serialize the
carried JSON document. -/
inductive ContextValue where
  | num : ℤ → ContextValue
  | str : Json → ContextValue

/-- Modelled from the spec: the context provider (`ContextProvider`, not
under `src/`) is a string-keyed store owned by the caller across the
teardown/recreate boundary (spec §9). -/
def ContextStore : Type := List (String × ContextValue)

/-- Embeds `contextProvider.save`: the newest binding for a key wins. -/
def storeSave (s : ContextStore) (k : String) (v : ContextValue) : ContextStore :=
  (k, v) :: s

/-- Embeds `contextProvider.get`. -/
def storeGet (s : ContextStore) (k : String) : Option ContextValue :=
  List.lookup k s

/-- Embeds `contextProvider.remove`. -/
def storeRemove (s : ContextStore) (k : String) : ContextStore :=
  s.filter (fun p => p.1 != k)

/-- The JSON document of one rectangle, as `JSON.stringify` renders the
`Rect` objects of the Layout array. -/
def rectToJson (r : Rect) : Json :=
  .obj [("x", .num r.x), ("y", .num r.y), ("height", .num r.height), ("width", .num r.width)]

/-- A JSON number's payload, `undefined` otherwise. -/
def Json.asNum : Json → Option ℤ
  | .num q => some q
  | _ => none

/-- Reconstructing one rectangle from its parsed JSON document (reading the
`x`, `y`, `height`, `width` members of the parsed object). -/
def rectFromJson (j : Json) : Option Rect :=
  match j with
  | .obj fields => do
    let x ← (List.lookup "x" fields) >>= Json.asNum
    let y ← (List.lookup "y" fields) >>= Json.asNum
    let height ← (List.lookup "height" fields) >>= Json.asNum
    let width ← (List.lookup "width" fields) >>= Json.asNum
    some { x := x, y := y, height := height, width := width }
  | _ => none

/-- The document of `JSON.stringify({layoutArray: layoutsToCache})` in
`componentWillUnmount`. -/
def layoutsToJson (layouts : List Rect) : Json :=
  .obj [("layoutArray", .arr (layouts.map rectToJson))]

/-- Reconstructing a list of rectangles element by element. -/
def rectsFromJson : List Json → Option (List Rect)
  | [] => some []
  | j :: rest => do
    let r ← rectFromJson j
    let rs ← rectsFromJson rest
    some (r :: rs)

/-- Embeds `JSON.parse(cachedLayouts).layoutArray` of `componentWillMount`: the
`layoutArray` member of the parsed document, reconstructed as a `Rect`
array (element reconstruction made explicit by the typed model). -/
def layoutsFromJson (j : Json) : Option (List Rect) :=
  match j with
  | .obj fields =>
    match List.lookup "layoutArray" fields with
    | some (.arr items) => rectsFromJson items
    | _ => none
  | _ => none

/-- Embeds `componentWillUnmount`: when a context provider with a truthy unique key
is present, save the current scroll offset under the key and — under
non-deterministic rendering, with a live layout engine — save the serialized
Layout array under the key suffixed with `_layouts`. -/
def componentWillUnmount (props : Props) (st : CoordState) (store : ContextStore) :
    ContextStore :=
  match props.contextKey with
  | none => store
  | some uniqueKey =>
    if uniqueKey ≠ "" then
      let store := storeSave store uniqueKey (.num st.trackerLastOffset)
      if props.forceNonDeterministicRendering then
        match st.layoutManager with
        | some lm => storeSave store (uniqueKey ++ "_layouts") (.str (layoutsToJson lm.layouts))
        | none => store
      else store
    else store

/-- Embeds `componentWillMount`: when a context provider with a truthy unique key is
present, restore a positive saved offset into `_initialOffset`, under
non-deterministic rendering restore the saved Layout array into
`_cachedLayouts` (a `JSON.stringify` result is a nonempty, hence truthy,
string), and remove the offset key from the store. -/
def componentWillMount (props : Props) (st : CoordState) (store : ContextStore) :
    CoordState × ContextStore :=
  match props.contextKey with
  | none => (st, store)
  | some uniqueKey =>
    if uniqueKey ≠ "" then
      let st :=
        match storeGet store uniqueKey with
        | some (.num offset) =>
          if offset > 0 then { st with initialOffsetVar := offset } else st
        | _ => st
      let st :=
        if props.forceNonDeterministicRendering then
          match storeGet store (uniqueKey ++ "_layouts") with
          | some (.str j) => { st with cachedLayouts := layoutsFromJson j }
          | _ => st
        else st
      (st, storeRemove store uniqueKey)
    else (st, store)

/-- The state of a debounced function: the scheduled trailing-edge deadline,
if any, and the times at which the wrapped executable actually ran. -/
structure DebounceState where
  deadline : Option ℤ
  runs : List ℤ
deriving DecidableEq, Repr

/-- An event seen by a debounced function: an invocation of the debounced
wrapper at time `t`, or the host timer firing at time `t`. -/
inductive DebEvent where
  | call (t : ℤ)
  | timer (t : ℤ)
deriving DecidableEq, Repr

/-- Modelled from the documented contract of `lodash-es/debounce` (the
library the source imports; its code is not part of this repository) with the
source's arguments — `debounce(f)`, so `wait = 0`, `leading = false`,
`trailing = true`: an invocation never runs the executable immediately; it
(re)schedules the deadline to `t + wait`, and the executable runs when the
timer fires at or after the scheduled deadline. -/
def lodashDebounceStep (wait : ℤ) (s : DebounceState) (e : DebEvent) : DebounceState :=
  match e with
  | .call t => { s with deadline := some (t + wait) }
  | .timer t =>
    match s.deadline with
    | some d => if d ≤ t then { deadline := none, runs := s.runs ++ [t] } else s
    | none => s

/-- The debouncer described by the spec's words (for comparison with the
embedded one): a leading-edge coalescing timer — the first request in a burst
executes immediately, and each new request within the window resets the
timer. -/
def specLeadingDebounceStep (wait : ℤ) (s : DebounceState) (e : DebEvent) : DebounceState :=
  match e with
  | .call t =>
    match s.deadline with
    | none => { deadline := some (t + wait), runs := s.runs ++ [t] }
    | some _ => { s with deadline := some (t + wait) }
  | .timer t =>
    match s.deadline with
    | some d => if d ≤ t then { s with deadline := none } else s
    | none => s

/-- Run a debouncer from the idle state over a sequence of events. -/
def runDebounce (step : DebounceState → DebEvent → DebounceState)
    (events : List DebEvent) : DebounceState :=
  events.foldl step { deadline := none, runs := [] }

/-- Embeds `refreshRequestDebouncer`: the module-level `debounce((executable) =>
executable())` — lodash debounce with the default zero wait. -/
def refreshRequestDebouncer : DebounceState → DebEvent → DebounceState :=
  lodashDebounceStep 0

/-- Whether an `Except` result returned normally. -/
def exceptOk {ε α : Type} : Except ε α → Bool
  | .ok _ => true
  | .error _ => false

/-- The pending re-layout cursor of a successful result (`-2` on error, a
value the cursor itself never takes). -/
def cursorAfter : Except ErrKind CoordState → ℤ
  | .ok s => s.relayoutReqIndex
  | .error _ => -2

/-- A coordinator state with every field at its construction-time default. -/
def emptyState : CoordState :=
  { layout := { height := 0, width := 0 }
    tempDim := { height := 0, width := 0 }
    initComplete := false
    relayoutReqIndex := -1
    onEndReachedCalled := false
    initialOffsetVar := 0
    cachedLayouts := none
    layoutManager := none
    trackerLastOffset := 0
    trackerVisible := []
    trackerRequired := []
    trackerStarted := false
    listenerAttached := false
    paramsItemCount := 0
    paramsIsHorizontal := false
    paramsInitialOffset := 0
    paramsInitialRenderIndex := 0
    paramsRenderAhead := 250
    pendingScrollToOffset := none
    visibilityEmissions := []
    endReachedFires := 0
    scrollCommands := []
    debouncerCalls := 0
    refreshes := 0
    anchorRefreshes := 0 }

/-- A sample type/size oracle: every index has type `1`, declared size
`50 × 300`. -/
def sampleLayoutProvider : LayoutProviderM :=
  { ref := 0
    getLayoutTypeForIndex := fun _ => .num 1
    sizeForType := fun _ _ => { height := 50, width := 300 } }

/-- A sample data source with three items. -/
def sampleDataProvider : DataProviderM :=
  { ref := 1
    size := 3
    dataForIndex := fun _ => 0
    firstIndexToProcessInternal := 0 }

/-- Sample props: a vertical list over the sample collaborators. -/
def sampleProps : Props :=
  { dataProvider := some sampleDataProvider
    layoutProvider := some sampleLayoutProvider
    isHorizontal := false
    forceNonDeterministicRendering := false
    onEndReachedPresent := false
    onEndReachedThreshold := 0
    onVisibleIndexesChangedPresent := false
    onScrollPresent := false
    initialOffset := 0
    initialRenderIndex := 0
    renderAheadOffset := 250
    contextKey := none }

/-- A sample layout engine over three laid-out `300 × 50` rows. -/
def sampleLM : LayoutManagerM :=
  { layouts := [{ x := 0, y := 0, height := 50, width := 300 },
                { x := 0, y := 50, height := 50, width := 300 },
                { x := 0, y := 100, height := 50, width := 300 }]
    isHorizontal := false
    containerDim := { height := 600, width := 300 }
    relayoutLog := []
    overrideLog := [] }

/-- A type/size oracle declaring a `100 × 100` size for every index. -/
def lpC2 : LayoutProviderM :=
  { ref := 2
    getLayoutTypeForIndex := fun _ => .num 1
    sizeForType := fun _ _ => { height := 100, width := 100 } }

/-- Props over the `100 × 100` oracle. -/
def propsC2 : Props := { sampleProps with layoutProvider := some lpC2 }

/-- A state with the sample layout engine installed and no pending cursor. -/
def stC2 : CoordState := { emptyState with layoutManager := some sampleLM }

/-- An oracle returning `null` for index 0, the empty string for index 1,
and the numeric type 0 for every other index. -/
def lpC6 : LayoutProviderM :=
  { ref := 3
    getLayoutTypeForIndex := fun i =>
      if i = 0 then .nullv else if i = 1 then .str "" else .num 0
    sizeForType := fun _ _ => { height := 50, width := 300 } }

/-- Props over the degenerate-type oracle. -/
def propsC6 : Props := { sampleProps with layoutProvider := some lpC6 }

/-- Props with a context provider key and non-deterministic rendering on. -/
def propsC4 : Props :=
  { sampleProps with contextKey := some "list", forceNonDeterministicRendering := true }

/-- A sequence of `_onViewContainerSizeChange` notifications processed in
order (the item-resize calls arriving between two flushes). -/
def processResizes (dim : Dimension) : CoordState → List ℤ → Except ErrKind CoordState
  | st, [] => .ok st
  | st, i :: rest => do
    let st2 ← onViewContainerSizeChange st dim i
    processResizes dim st2 rest

/-- A sequence of scroll events (`_onScroll` calls) processed in order. -/
def scrollTrace (props : Props) (st : CoordState) (os : List (ℤ × ℤ)) : CoordState :=
  os.foldl (fun s o => onScroll props s o.1 o.2) st

/-- The `windowBound` quantity of `_processOnEndReached`: scrollable content
extent minus viewport extent along the scroll axis. -/
def windowBoundS (props : Props) (st : CoordState) : ℤ :=
  if props.isHorizontal then (layoutDimensionS st).width - st.layout.width
  else (layoutDimensionS st).height - st.layout.height

/-- The component of a scroll event along the primary scroll axis. -/
def primaryOf (props : Props) (o : ℤ × ℤ) : ℤ :=
  if props.isHorizontal then o.1 else o.2

/-- A state ready for scrolling: listener attached, sample layouts, a
`300 × 100` viewport. -/
def stC7 : CoordState :=
  { emptyState with listenerAttached := true, layoutManager := some sampleLM,
                    layout := { height := 100, width := 300 } }

/-- Props with the end-reached callback attached and threshold `10`. -/
def propsC10 : Props :=
  { sampleProps with onEndReachedPresent := true, onEndReachedThreshold := 10 }

/-- A state for end-reached scrolling over the sample layouts with a
`300 × 100` viewport. -/
def stC10 : CoordState :=
  { emptyState with layoutManager := some sampleLM,
                    layout := { height := 100, width := 300 } }

theorem except_bind_ok {ε α β : Type} (x : α) (f : α → Except ε β) :
    (Except.ok x >>= f : Except ε β) = f x := rfl

theorem except_bind_pure_exists {ε α β : Type} (x : Except ε α) (f : α → β)
    (h : ∃ a, x = .ok a) :
    ∃ b, (x >>= fun a => Except.ok (f a) : Except ε β) = .ok b := by
  obtain ⟨a, ha⟩ := h
  exact ⟨f a, by rw [ha]; rfl⟩

theorem assertDependencyPresence_ok (props : Props) (dp : DataProviderM)
    (lp : LayoutProviderM) (hdp : props.dataProvider = some dp)
    (hlp : props.layoutProvider = some lp) :
    assertDependencyPresence props = .ok () := by
  simp [assertDependencyPresence, hdp, hlp]

theorem initTrackers_ok (props : Props) (st : CoordState) (dp : DataProviderM)
    (lp : LayoutProviderM) (hdp : props.dataProvider = some dp)
    (hlp : props.layoutProvider = some lp) :
    ∃ st2, initTrackers props st = .ok st2 := by
  unfold initTrackers
  rw [assertDependencyPresence_ok props dp lp hdp hlp, except_bind_ok, hdp, hlp]
  exact ⟨_, rfl⟩

theorem checkAndChangeLayouts_forced_ok (props : Props) (st : CoordState)
    (dp : DataProviderM) (lp : LayoutProviderM) (hdp : props.dataProvider = some dp)
    (hlp : props.layoutProvider = some lp) :
    ∃ st2, checkAndChangeLayouts props props true st = .ok st2 := by
  unfold checkAndChangeLayouts
  rw [hdp, hlp]
  simp only [eq_self_iff_true, true_or, if_true]
  exact ⟨_, rfl⟩

/-- C1 (amended): `_onSizeChanged` raises the fatal `layoutException` exactly
when the incoming viewport has a width or height equal to zero; any viewport
with nonzero dimensions — negative ones included — is accepted without
raising, provided the required collaborators are present. -/
theorem onSizeChanged_raises_iff_zero (props : Props) (st : CoordState)
    (layout : Dimension) (dp : DataProviderM) (lp : LayoutProviderM)
    (hdp : props.dataProvider = some dp) (hlp : props.layoutProvider = some lp) :
    ((layout.height = 0 ∨ layout.width = 0) →
        onSizeChanged props st layout = .error .layoutException) ∧
    ((layout.height ≠ 0 ∧ layout.width ≠ 0) →
        ∃ st2, onSizeChanged props st layout = .ok st2) := by
  constructor
  · intro hz
    unfold onSizeChanged
    rw [if_pos hz]
  · intro hnz
    unfold onSizeChanged
    rw [if_neg (by rintro (h | h) <;> [exact hnz.1 h; exact hnz.2 h])]
    by_cases hic : st.initComplete = false
    · rw [if_pos (by simpa using hic)]
      exact except_bind_pure_exists _ _ (initTrackers_ok props _ dp lp hdp hlp)
    · rw [if_neg (by simpa using hic)]
      by_cases hch : ((st.layout.height ≠ layout.height ∧ st.layout.width ≠ layout.width)
          ∨ (st.layout.height ≠ layout.height ∧ props.isHorizontal = true)
          ∨ (st.layout.width ≠ layout.width ∧ props.isHorizontal = false))
      · rw [if_pos hch]
        exact checkAndChangeLayouts_forced_ok props _ dp lp hdp hlp
      · rw [if_neg hch]
        exact ⟨_, rfl⟩

/-- C1 (counterexample to the claim as stated): a viewport with a negative
width is accepted — `_onSizeChanged` returns normally instead of raising. -/
theorem onSizeChanged_negative_width_no_raise :
    exceptOk (onSizeChanged sampleProps emptyState { height := 300, width := -5 }) = true ∧
    (-5 : ℤ) < 0 := by
  constructor
  · rfl
  · norm_num

/-- Witness for `onSizeChanged_raises_iff_zero` at concrete inputs: a zero
height raises, a positive viewport does not. -/
theorem onSizeChanged_raises_iff_zero_witness :
    onSizeChanged sampleProps emptyState { height := 0, width := 300 } = .error .layoutException ∧
    ∃ st2, onSizeChanged sampleProps emptyState { height := 300, width := 300 } = .ok st2 := by
  constructor
  · exact (onSizeChanged_raises_iff_zero sampleProps emptyState _ sampleDataProvider
      sampleLayoutProvider rfl rfl).1 (Or.inl rfl)
  · exact (onSizeChanged_raises_iff_zero sampleProps emptyState _ sampleDataProvider
      sampleLayoutProvider rfl rfl).2 (by norm_num)

theorem Dimension.eq_iff (a b : Dimension) :
    a = b ↔ a.height = b.height ∧ a.width = b.width := by
  constructor
  · intro h
    rw [h]
    exact ⟨rfl, rfl⟩
  · rintro ⟨h1, h2⟩
    cases a
    cases b
    simp_all

theorem checkExpectedDimensionDiscrepancy_eq (props : Props) (st : CoordState)
    (itemRect : Dimension) (t : JSVal) (index : ℤ) (lm : LayoutManagerM)
    (lp : LayoutProviderM) (hlm : st.layoutManager = some lm)
    (hlp : props.layoutProvider = some lp) :
    checkExpectedDimensionDiscrepancy props st itemRect t index =
      .ok (if itemRect.height ≠ (lm.setMaxBounds (lp.sizeForType t index)).height ∨
              itemRect.width ≠ (lm.setMaxBounds (lp.sizeForType t index)).width then
        { st with tempDim := lm.setMaxBounds (lp.sizeForType t index),
                  relayoutReqIndex := updateCursor st.relayoutReqIndex index }
      else
        { st with tempDim := lm.setMaxBounds (lp.sizeForType t index) }) := by
  unfold checkExpectedDimensionDiscrepancy
  simp only [hlm, hlp]
  by_cases hd : itemRect.height ≠ (lm.setMaxBounds (lp.sizeForType t index)).height ∨
      itemRect.width ≠ (lm.setMaxBounds (lp.sizeForType t index)).width
  · rw [if_pos hd, if_pos hd]
  · rw [if_neg hd, if_neg hd]

/-- C2 (amended): in `_checkExpectedDimensionDiscrepancy` a measured item
rectangle that differs in any way — larger or smaller — from the declared
(max-bounded) size for its type sets the pending re-layout cursor; the
cursor is left unset only when the measured size equals that declared size
exactly. -/
theorem checkExpectedDimensionDiscrepancy_cursor (props : Props) (st : CoordState)
    (itemRect : Dimension) (t : JSVal) (index : ℤ) (lm : LayoutManagerM)
    (lp : LayoutProviderM) (hlm : st.layoutManager = some lm)
    (hlp : props.layoutProvider = some lp) (hc : st.relayoutReqIndex = -1)
    (hi : 0 ≤ index) :
    ∃ st2, checkExpectedDimensionDiscrepancy props st itemRect t index = .ok st2 ∧
      (st2.relayoutReqIndex = index ↔ itemRect ≠ lm.setMaxBounds (lp.sizeForType t index)) ∧
      (st2.relayoutReqIndex = -1 ↔ itemRect = lm.setMaxBounds (lp.sizeForType t index)) := by
  rw [checkExpectedDimensionDiscrepancy_eq props st itemRect t index lm lp hlm hlp]
  have hne : index ≠ -1 := by omega
  by_cases hd : itemRect.height ≠ (lm.setMaxBounds (lp.sizeForType t index)).height ∨
      itemRect.width ≠ (lm.setMaxBounds (lp.sizeForType t index)).width
  · rw [if_pos hd]
    refine ⟨_, rfl, ?_, ?_⟩
    · simp only [updateCursor, hc, if_pos rfl]
      constructor
      · intro _
        intro heq
        rcases hd with h | h
        · exact h (by rw [heq])
        · exact h (by rw [heq])
      · intro _
        rfl
    · simp only [updateCursor, hc, if_pos rfl]
      constructor
      · intro h
        exact absurd h hne
      · intro heq
        rcases hd with h | h
        · exact absurd (by rw [heq]) h
        · exact absurd (by rw [heq]) h
  · rw [if_neg hd]
    push_neg at hd
    have heq : itemRect = lm.setMaxBounds (lp.sizeForType t index) :=
      (Dimension.eq_iff _ _).2 ⟨hd.1, hd.2⟩
    refine ⟨_, rfl, ?_, ?_⟩
    · simp only [hc]
      constructor
      · intro h
        exact absurd h.symm hne
      · intro h
        exact absurd heq h
    · simp [hc, heq]

/-- C2 (counterexample to the claim as stated): a measured rectangle of
height 50 — strictly smaller than the declared (max-bounded) `100 × 100`
size, equal in width — does set the pending re-layout cursor. -/
theorem checkExpectedDimensionDiscrepancy_smaller_sets_cursor :
    (50 : ℤ) < (sampleLM.setMaxBounds (lpC2.sizeForType (.num 1) 1)).height ∧
    (100 : ℤ) = (sampleLM.setMaxBounds (lpC2.sizeForType (.num 1) 1)).width ∧
    stC2.relayoutReqIndex = -1 ∧
    cursorAfter (checkExpectedDimensionDiscrepancy propsC2 stC2
      { height := 50, width := 100 } (.num 1) 1) = 1 := by
  refine ⟨?_, ?_, rfl, rfl⟩
  · norm_num [LayoutManagerM.setMaxBounds, sampleLM, lpC2]
  · norm_num [LayoutManagerM.setMaxBounds, sampleLM, lpC2]

/-- Witness for `checkExpectedDimensionDiscrepancy_cursor` at the concrete
smaller-measurement input. -/
theorem checkExpectedDimensionDiscrepancy_cursor_witness :
    ∃ st2, checkExpectedDimensionDiscrepancy propsC2 stC2
        { height := 50, width := 100 } (.num 1) 1 = .ok st2 ∧
      (st2.relayoutReqIndex = 1 ↔
        ({ height := 50, width := 100 } : Dimension) ≠
          sampleLM.setMaxBounds (lpC2.sizeForType (.num 1) 1)) ∧
      (st2.relayoutReqIndex = -1 ↔
        ({ height := 50, width := 100 } : Dimension) =
          sampleLM.setMaxBounds (lpC2.sizeForType (.num 1) 1)) := by
  exact checkExpectedDimensionDiscrepancy_cursor propsC2 stC2 _ _ 1 sampleLM lpC2
    rfl rfl rfl (by norm_num)

theorem onViewContainerSizeChange_ok (st : CoordState) (dim : Dimension) (i : ℤ)
    (lm : LayoutManagerM) (hlm : st.layoutManager = some lm) :
    onViewContainerSizeChange st dim i =
      .ok (queueStateRefresh
        { st with layoutManager := some (lm.overrideLayout i dim),
                  relayoutReqIndex := updateCursor st.relayoutReqIndex i }) := by
  unfold onViewContainerSizeChange
  rw [hlm]

theorem processResizes_ok (dim : Dimension) (idxs : List ℤ) :
    ∀ (st : CoordState) (lm : LayoutManagerM), st.layoutManager = some lm →
    ∃ st2 lm2, processResizes dim st idxs = .ok st2 ∧
      st2.layoutManager = some lm2 ∧
      lm2.relayoutLog = lm.relayoutLog ∧
      st2.relayoutReqIndex = idxs.foldl updateCursor st.relayoutReqIndex := by
  induction idxs with
  | nil =>
    intro st lm hlm
    exact ⟨st, lm, rfl, hlm, rfl, rfl⟩
  | cons i rest ih =>
    intro st lm hlm
    simp only [processResizes]
    rw [onViewContainerSizeChange_ok st dim i lm hlm, except_bind_ok]
    obtain ⟨st2, lm2, h1, h2, h3, h4⟩ := ih
      (queueStateRefresh
        { st with layoutManager := some (lm.overrideLayout i dim),
                  relayoutReqIndex := updateCursor st.relayoutReqIndex i })
      (lm.overrideLayout i dim) rfl
    refine ⟨st2, lm2, h1, h2, ?_, ?_⟩
    · rw [h3]
      rfl
    · rw [List.foldl_cons]
      exact h4

theorem foldl_updateCursor_nonneg (idxs : List ℤ) :
    ∀ c : ℤ, 0 ≤ c → (∀ j ∈ idxs, 0 ≤ j) →
      idxs.foldl updateCursor c = idxs.foldl min c := by
  induction idxs with
  | nil =>
    intro c _ _
    rfl
  | cons i rest ih =>
    intro c hc hall
    have hi : (0 : ℤ) ≤ i := hall i (List.mem_cons_self i rest)
    rw [List.foldl_cons, List.foldl_cons]
    have hci : updateCursor c i = min c i := by
      unfold updateCursor
      rw [if_neg (by omega)]
    rw [hci]
    exact ih (min c i) (le_min hc hi) (fun j hj => hall j (List.mem_cons_of_mem _ hj))

theorem foldl_min_le_all (idxs : List ℤ) :
    ∀ c : ℤ, idxs.foldl min c ≤ c ∧ ∀ j ∈ idxs, idxs.foldl min c ≤ j := by
  induction idxs with
  | nil =>
    intro c
    exact ⟨le_refl c, by simp⟩
  | cons i rest ih =>
    intro c
    rw [List.foldl_cons]
    obtain ⟨h1, h2⟩ := ih (min c i)
    refine ⟨le_trans h1 (min_le_left c i), ?_⟩
    intro j hj
    rcases List.mem_cons.mp hj with h | h
    · rw [h]
      exact le_trans h1 (min_le_right c i)
    · exact h2 j h

theorem foldl_min_mem (idxs : List ℤ) :
    ∀ c : ℤ, idxs.foldl min c = c ∨ idxs.foldl min c ∈ idxs := by
  induction idxs with
  | nil =>
    intro c
    exact Or.inl rfl
  | cons i rest ih =>
    intro c
    rw [List.foldl_cons]
    rcases ih (min c i) with h | h
    · rcases min_choice c i with hm | hm
      · exact Or.inl (h.trans hm)
      · exact Or.inr (List.mem_cons.mpr (Or.inl (h.trans hm)))
    · exact Or.inr (List.mem_cons.mpr (Or.inr h))

theorem checkAndChangeLayouts_flush (props : Props) (st : CoordState)
    (dp : DataProviderM) (lp : LayoutProviderM) (lm : LayoutManagerM)
    (hdp : props.dataProvider = some dp) (hlp : props.layoutProvider = some lp)
    (hlm : st.layoutManager = some lm) (hcur : 0 ≤ st.relayoutReqIndex) :
    ∃ st3 lm3, checkAndChangeLayouts props props false st = .ok st3 ∧
      st3.layoutManager = some lm3 ∧
      lm3.relayoutLog = lm.relayoutLog ++ [(st.relayoutReqIndex, dp.size)] ∧
      st3.relayoutReqIndex = -1 := by
  unfold checkAndChangeLayouts
  simp only [hdp, hlp, hlm]
  rw [if_neg (by simp)]
  rw [if_neg (by simp)]
  rw [if_pos hcur]
  exact ⟨_, _, rfl, rfl, rfl, rfl⟩

/-- C3: between two flushes, a sequence of item-resize notifications
`_onViewContainerSizeChange` with indices `i :: rest` leaves the pending
re-layout cursor at exactly the minimum of the notified indices, and the
flush (`_checkAndChangeLayouts` with unchanged props) re-lays out from
exactly that minimum index and resets the cursor to the `-1` sentinel. -/
theorem resize_coalescing_min_and_flush (props : Props) (st : CoordState)
    (dim : Dimension) (i : ℤ) (rest : List ℤ) (dp : DataProviderM)
    (lp : LayoutProviderM) (lm : LayoutManagerM)
    (hdp : props.dataProvider = some dp) (hlp : props.layoutProvider = some lp)
    (hlm : st.layoutManager = some lm) (hc : st.relayoutReqIndex = -1)
    (hi : 0 ≤ i) (hrest : ∀ j ∈ rest, 0 ≤ j) :
    ∃ st2, processResizes dim st (i :: rest) = .ok st2 ∧
      st2.relayoutReqIndex = rest.foldl min i ∧
      (∀ j ∈ i :: rest, st2.relayoutReqIndex ≤ j) ∧
      st2.relayoutReqIndex ∈ i :: rest ∧
      ∃ st3 lm3, checkAndChangeLayouts props props false st2 = .ok st3 ∧
        st3.layoutManager = some lm3 ∧
        lm3.relayoutLog = lm.relayoutLog ++ [(rest.foldl min i, dp.size)] ∧
        st3.relayoutReqIndex = -1 := by
  obtain ⟨st2, lm2, h1, h2, h3, h4⟩ := processResizes_ok dim (i :: rest) st lm hlm
  have hfold : st2.relayoutReqIndex = rest.foldl min i := by
    rw [h4, List.foldl_cons, hc]
    have hstep : updateCursor (-1) i = i := by
      unfold updateCursor
      rw [if_pos rfl]
    rw [hstep]
    exact foldl_updateCursor_nonneg rest i hi hrest
  have hmem : st2.relayoutReqIndex ∈ i :: rest := by
    rw [hfold]
    rcases foldl_min_mem rest i with h | h
    · rw [h]
      exact List.mem_cons_self i rest
    · exact List.mem_cons_of_mem _ h
  have hmin0 : 0 ≤ st2.relayoutReqIndex := by
    rcases List.mem_cons.mp hmem with h | h
    · rw [h]
      exact hi
    · rw [show st2.relayoutReqIndex = st2.relayoutReqIndex from rfl] at h
      exact hrest _ h
  obtain ⟨st3, lm3, g1, g2, g3, g4⟩ :=
    checkAndChangeLayouts_flush props st2 dp lp lm2 hdp hlp h2 hmin0
  refine ⟨st2, h1, hfold, ?_, hmem, st3, lm3, g1, g2, ?_, g4⟩
  · intro j hj
    rw [hfold]
    obtain ⟨hle, hall⟩ := foldl_min_le_all rest i
    rcases List.mem_cons.mp hj with h | h
    · rw [h]
      exact hle
    · exact hall j h
  · rw [g3, h3, hfold]

/-- Witness for `resize_coalescing_min_and_flush`: resizes at indices `2`
then `1` coalesce to cursor `1`, and the flush re-lays out from `1`. -/
theorem resize_coalescing_min_and_flush_witness :
    ∃ st2, processResizes { height := 40, width := 300 } stC2 [2, 1] = .ok st2 ∧
      st2.relayoutReqIndex = 1 ∧
      ∃ st3 lm3, checkAndChangeLayouts propsC2 propsC2 false st2 = .ok st3 ∧
        st3.layoutManager = some lm3 ∧
        lm3.relayoutLog = [(1, 3)] ∧
        st3.relayoutReqIndex = -1 := by
  obtain ⟨st2, h1, h2, _, _, st3, lm3, g1, g2, g3, g4⟩ :=
    resize_coalescing_min_and_flush propsC2 stC2 { height := 40, width := 300 } 2 [1]
      sampleDataProvider lpC2 sampleLM rfl rfl rfl rfl (by norm_num)
      (by
        intro j hj
        rw [List.mem_singleton] at hj
        omega)
  refine ⟨st2, h1, ?_, st3, lm3, g1, g2, ?_, g4⟩
  · rw [h2]
    rfl
  · rw [g3]
    rfl

theorem rectFromJson_rectToJson (r : Rect) : rectFromJson (rectToJson r) = some r := by
  rfl

theorem rectsFromJson_map (l : List Rect) : rectsFromJson (l.map rectToJson) = some l := by
  induction l with
  | nil => rfl
  | cons r rest ih =>
    simp [rectsFromJson, rectFromJson_rectToJson, ih]

theorem layoutsFromJson_layoutsToJson (l : List Rect) :
    layoutsFromJson (layoutsToJson l) = some l := by
  simp [layoutsToJson, layoutsFromJson, List.lookup, rectsFromJson_map]

theorem storeGet_save_same (s : ContextStore) (k : String) (v : ContextValue) :
    storeGet (storeSave s k v) k = some v := by
  simp [storeGet, storeSave, List.lookup]

theorem storeGet_save_other (s : ContextStore) (k k2 : String) (v : ContextValue)
    (h : k2 ≠ k) : storeGet (storeSave s k v) k2 = storeGet s k2 := by
  unfold storeGet storeSave
  rw [List.lookup_cons, show (k2 == k) = false from beq_eq_false_iff_ne.mpr h]

theorem key_ne_layouts_key (k : String) : k ≠ k ++ "_layouts" := by
  intro h
  have h2 := congrArg String.length h
  simp [String.length_append] at h2
  exact absurd h2 (by decide)

theorem initTrackers_layoutManager (props : Props) (st : CoordState)
    (dp : DataProviderM) (lp : LayoutProviderM)
    (hdp : props.dataProvider = some dp) (hlp : props.layoutProvider = some lp) :
    ∃ st2, initTrackers props st = .ok st2 ∧
      st2.layoutManager =
        some (LayoutManagerM.new lp st.layout props.isHorizontal st.cachedLayouts) ∧
      st2.cachedLayouts = none := by
  unfold initTrackers
  rw [assertDependencyPresence_ok props dp lp hdp hlp, except_bind_ok, hdp, hlp]
  refine ⟨_, rfl, ?_, ?_⟩ <;> (repeat' split) <;> rfl

theorem componentWillUnmount_eq (props : Props) (st : CoordState)
    (store : ContextStore) (lm : LayoutManagerM) (k : String)
    (hk : props.contextKey = some k) (hk0 : k ≠ "")
    (hf : props.forceNonDeterministicRendering = true)
    (hlm : st.layoutManager = some lm) :
    componentWillUnmount props st store =
      storeSave (storeSave store k (.num st.trackerLastOffset)) (k ++ "_layouts")
        (.str (layoutsToJson lm.layouts)) := by
  unfold componentWillUnmount
  simp only [hk]
  rw [if_pos hk0, hf, if_pos rfl, hlm]

/-- C4: across a teardown/recreate cycle under non-deterministic rendering,
the Layout array saved by `componentWillUnmount` is restored verbatim by
`componentWillMount` into `_cachedLayouts`, and `_initTrackers` hands exactly
those layouts to the freshly constructed layout engine — whose suffix
re-layout log is empty, i.e. no recomputation was performed to obtain them. -/
theorem layout_cache_roundtrip (props : Props) (st fresh : CoordState)
    (store : ContextStore) (dp : DataProviderM) (lp : LayoutProviderM)
    (lm : LayoutManagerM) (k : String)
    (hk : props.contextKey = some k) (hk0 : k ≠ "")
    (hf : props.forceNonDeterministicRendering = true)
    (hlm : st.layoutManager = some lm)
    (hdp : props.dataProvider = some dp) (hlp : props.layoutProvider = some lp) :
    (componentWillMount props fresh (componentWillUnmount props st store)).1.cachedLayouts
      = some lm.layouts ∧
    ∃ st3 lm3,
      initTrackers props
        (componentWillMount props fresh (componentWillUnmount props st store)).1 = .ok st3 ∧
      st3.layoutManager = some lm3 ∧
      lm3.layouts = lm.layouts ∧
      lm3.relayoutLog = [] := by
  rw [componentWillUnmount_eq props st store lm k hk hk0 hf hlm]
  have hget1 : storeGet (storeSave (storeSave store k (.num st.trackerLastOffset))
      (k ++ "_layouts") (.str (layoutsToJson lm.layouts))) k =
      some (.num st.trackerLastOffset) := by
    rw [storeGet_save_other _ _ _ _ (key_ne_layouts_key k), storeGet_save_same]
  have hget2 : storeGet (storeSave (storeSave store k (.num st.trackerLastOffset))
      (k ++ "_layouts") (.str (layoutsToJson lm.layouts))) (k ++ "_layouts") =
      some (.str (layoutsToJson lm.layouts)) := storeGet_save_same _ _ _
  have hmounted : (componentWillMount props fresh
      (storeSave (storeSave store k (.num st.trackerLastOffset))
        (k ++ "_layouts") (.str (layoutsToJson lm.layouts)))).1.cachedLayouts =
      some lm.layouts := by
    unfold componentWillMount
    simp only [hk]
    rw [if_pos hk0]
    simp only [hget1, hget2, hf, eq_self_iff_true, if_true]
    rw [layoutsFromJson_layoutsToJson]
  refine ⟨hmounted, ?_⟩
  obtain ⟨st3, h1, h2, _⟩ := initTrackers_layoutManager props _ dp lp hdp hlp
  rw [hmounted] at h2
  exact ⟨st3, _, h1, h2, rfl, rfl⟩

/-- Witness for `layout_cache_roundtrip`: the sample three-row Layout array
survives an unmount/mount cycle verbatim. -/
theorem layout_cache_roundtrip_witness :
    (componentWillMount propsC4 emptyState
        (componentWillUnmount propsC4 stC2 [])).1.cachedLayouts = some sampleLM.layouts ∧
    ∃ st3 lm3, initTrackers propsC4 (componentWillMount propsC4 emptyState
        (componentWillUnmount propsC4 stC2 [])).1 = .ok st3 ∧
      st3.layoutManager = some lm3 ∧ lm3.layouts = sampleLM.layouts ∧
      lm3.relayoutLog = [] :=
  layout_cache_roundtrip propsC4 stC2 emptyState [] sampleDataProvider
    sampleLayoutProvider sampleLM "list" rfl (by decide) rfl rfl rfl rfl

/-- C5: an index outside `[0, itemCount)` handed to `scrollToIndex` (and
through it to the layout engine's `getOffsetForIndex`) is reported to the
caller as `OutOfRange`, and the state returned by the failed call is exactly
the input state — no scroll command is issued and no field changes. -/
theorem scrollToIndex_out_of_range (st : CoordState) (index : ℤ) (animate : Bool)
    (lm : LayoutManagerM) (hlm : st.layoutManager = some lm)
    (hout : index < 0 ∨ (lm.layouts.length : ℤ) ≤ index) :
    scrollToIndex st index animate = (st, some .outOfRange) := by
  unfold scrollToIndex
  simp only [hlm]
  unfold LayoutManagerM.getOffsetForIndex
  rw [dif_neg (by omega)]

/-- Witness for `scrollToIndex_out_of_range`: index `5` against the
three-item sample layout fails with `OutOfRange` and leaves the state as
it was. -/
theorem scrollToIndex_out_of_range_witness :
    scrollToIndex stC2 5 false = (stC2, some .outOfRange) :=
  scrollToIndex_out_of_range stC2 5 false sampleLM rfl (Or.inr (by decide))

theorem except_bind_error {ε α β : Type} (e : ε) (f : α → Except ε β) :
    (Except.error e >>= f : Except ε β) = .error e := rfl

/-- C9: `_renderRowUsingMeta` returns `null` (no rendered row) for a
render-stack entry whose `dataIndex` is `undefined`, is `0`, or is not
strictly below the data-source size; in particular the entry bound to data
index `0` is never rendered through this path. -/
theorem renderRow_null_cases (props : Props) (st : CoordState)
    (itemMeta : RenderStackItem) (dp : DataProviderM) (lp : LayoutProviderM)
    (hdp : props.dataProvider = some dp) (hlp : props.layoutProvider = some lp)
    (h : itemMeta.dataIndex = none ∨ itemMeta.dataIndex = some 0 ∨
         ∃ i, itemMeta.dataIndex = some i ∧ dp.size ≤ i) :
    renderRowUsingMeta props st itemMeta = .ok (st, none) := by
  unfold renderRowUsingMeta
  rcases h with h | h | ⟨i, h, hsz⟩
  · simp only [hdp, hlp, h]
  · simp only [hdp, hlp, h]
    rw [if_neg (by intro hcontra; exact hcontra.1 rfl)]
  · simp only [hdp, hlp, h]
    rw [if_neg (by intro hcontra; omega)]

/-- Witness for `renderRow_null_cases`: the entry for data index `0` yields
`null` even though `0` is a valid index of the three-item source. -/
theorem renderRow_null_cases_witness :
    renderRowUsingMeta propsC2 stC2 { key := 7, dataIndex := some 0 } = .ok (stC2, none) ∧
    (0 : ℤ) < sampleDataProvider.size :=
  ⟨renderRow_null_cases propsC2 stC2 _ sampleDataProvider lpC2 rfl rfl
      (Or.inr (Or.inl rfl)),
    by decide⟩

theorem assertType_error_iff (t : JSVal) :
    assertType t = .error .itemTypeNullException ↔
      (t = .undef ∨ t = .nullv ∨ t = .str "") := by
  constructor
  · intro h
    cases t with
    | str s =>
      by_cases hs : s = ""
      · exact Or.inr (Or.inr (by rw [hs]))
      · exact absurd h (by simp [assertType, JSVal.truthy, hs])
    | num q =>
      by_cases hq : q = 0
      · exact absurd h (by simp [assertType, JSVal.truthy, hq])
      · exact absurd h (by simp [assertType, JSVal.truthy, hq])
    | nullv => exact Or.inr (Or.inl rfl)
    | undef => exact Or.inl rfl
  · intro h
    rcases h with h | h | h <;> rw [h] <;> rfl

theorem assertType_ok_of_defined (t : JSVal)
    (h : ¬(t = .undef ∨ t = .nullv ∨ t = .str "")) : assertType t = .ok () := by
  push_neg at h
  obtain ⟨h1, h2, h3⟩ := h
  cases t with
  | str s =>
    have hs : s ≠ "" := fun hs => h3 (by rw [hs])
    simp [assertType, JSVal.truthy, hs]
  | num q =>
    by_cases hq : q = 0
    · simp [assertType, JSVal.truthy, hq]
    · simp [assertType, JSVal.truthy, hq]
  | nullv => exact absurd rfl h2
  | undef => exact absurd rfl h1

theorem renderRow_reduces (props : Props) (st : CoordState)
    (itemMeta : RenderStackItem) (dp : DataProviderM) (lp : LayoutProviderM)
    (lm : LayoutManagerM) (i : ℤ) (r : Rect)
    (hdp : props.dataProvider = some dp) (hlp : props.layoutProvider = some lp)
    (hlm : st.layoutManager = some lm) (hi : itemMeta.dataIndex = some i)
    (hcond : i ≠ 0 ∧ i < dp.size) (hr : jsIndex lm.layouts i = some r) :
    renderRowUsingMeta props st itemMeta =
      (assertType (lp.getLayoutTypeForIndex i) >>= fun _ =>
        (if ¬props.forceNonDeterministicRendering then
            checkExpectedDimensionDiscrepancy props st r.dim
              (lp.getLayoutTypeForIndex i) i
          else .ok st) >>= fun st2 =>
        .ok (st2, some { key := itemMeta.key, data := dp.dataForIndex i, x := r.x,
                         y := r.y, layoutType := lp.getLayoutTypeForIndex i,
                         index := i, height := r.height, width := r.width })) := by
  unfold renderRowUsingMeta
  simp only [hdp, hlp, hi]
  rw [if_pos hcond]
  simp only [hlm]
  rw [hr]

/-- C6 (amended): for a render-stack entry with a valid nonzero index (an
entry at index `0` short-circuits to `null` before the type check),
rendering raises the fatal `itemTypeNullException` exactly when the type
oracle returns `undefined`, `null`, or the empty string for that index;
for every other defined type — the numeric type `0` included — it returns
a rendered row and does not raise. -/
theorem renderRow_type_assertion (props : Props) (st : CoordState)
    (itemMeta : RenderStackItem) (dp : DataProviderM) (lp : LayoutProviderM)
    (lm : LayoutManagerM) (i : ℤ)
    (hdp : props.dataProvider = some dp) (hlp : props.layoutProvider = some lp)
    (hlm : st.layoutManager = some lm) (hi : itemMeta.dataIndex = some i)
    (h0 : 0 < i) (hsz : i < dp.size) (hlen : i.toNat < lm.layouts.length) :
    (renderRowUsingMeta props st itemMeta = .error .itemTypeNullException ↔
      (lp.getLayoutTypeForIndex i = .undef ∨ lp.getLayoutTypeForIndex i = .nullv ∨
        lp.getLayoutTypeForIndex i = .str "")) ∧
    (¬(lp.getLayoutTypeForIndex i = .undef ∨ lp.getLayoutTypeForIndex i = .nullv ∨
        lp.getLayoutTypeForIndex i = .str "") →
      ∃ st2 row, renderRowUsingMeta props st itemMeta = .ok (st2, some row)) := by
  have hr : jsIndex lm.layouts i = some (lm.layouts.get ⟨i.toNat, hlen⟩) := by
    unfold jsIndex
    rw [dif_pos ⟨by omega, hlen⟩]
  have hred := renderRow_reduces props st itemMeta dp lp lm i _ hdp hlp hlm hi
    ⟨by omega, hsz⟩ hr
  have htail : ∃ st2, (if ¬props.forceNonDeterministicRendering then
      checkExpectedDimensionDiscrepancy props st (lm.layouts.get ⟨i.toNat, hlen⟩).dim
        (lp.getLayoutTypeForIndex i) i
    else .ok st) = .ok st2 := by
    by_cases hforce : props.forceNonDeterministicRendering
    · rw [if_neg (by simpa using hforce)]
      exact ⟨st, rfl⟩
    · rw [if_pos (by simpa using hforce)]
      rw [checkExpectedDimensionDiscrepancy_eq props st _ _ i lm lp hlm hlp]
      exact ⟨_, rfl⟩
  obtain ⟨st2, htl⟩ := htail
  constructor
  · constructor
    · intro herr
      by_contra hbad
      rw [hred, assertType_ok_of_defined _ hbad, except_bind_ok, htl,
        except_bind_ok] at herr
      exact absurd herr (by simp)
    · intro hbad
      rw [hred, (assertType_error_iff _).2 hbad, except_bind_error]
  · intro hbad
    rw [hred, assertType_ok_of_defined _ hbad, except_bind_ok, htl, except_bind_ok]
    exact ⟨st2, _, rfl⟩

/-- C6 (counterexample to the claim as stated): the empty string is a
defined type — neither `undefined` nor `null` — yet rendering the valid
index `1` raises for it; and at the valid index `0` a `null` type does not
raise, because the row short-circuits to `null` output before the type
check. -/
theorem renderRow_type_claim_counterexample :
    renderRowUsingMeta propsC6 stC2 { key := 1, dataIndex := some 1 } =
      .error .itemTypeNullException ∧
    lpC6.getLayoutTypeForIndex 1 = .str "" ∧
    renderRowUsingMeta propsC6 stC2 { key := 0, dataIndex := some 0 } =
      .ok (stC2, none) ∧
    lpC6.getLayoutTypeForIndex 0 = .nullv := by
  refine ⟨rfl, by decide, rfl, by decide⟩

/-- Witness for `renderRow_type_assertion`: at index `1` the empty-string
type raises by the iff; at index `2` the numeric type `0` renders a row. -/
theorem renderRow_type_assertion_witness :
    (renderRowUsingMeta propsC6 stC2 { key := 1, dataIndex := some 1 } =
        .error .itemTypeNullException ↔
      (lpC6.getLayoutTypeForIndex 1 = .undef ∨ lpC6.getLayoutTypeForIndex 1 = .nullv ∨
        lpC6.getLayoutTypeForIndex 1 = .str "")) ∧
    (∃ st2 row, renderRowUsingMeta propsC6 stC2 { key := 2, dataIndex := some 2 } =
        .ok (st2, some row)) := by
  constructor
  · exact (renderRow_type_assertion propsC6 stC2 _ sampleDataProvider lpC6 sampleLM 1
      rfl rfl rfl rfl (by norm_num) (by decide) (by decide)).1
  · exact (renderRow_type_assertion propsC6 stC2 _ sampleDataProvider lpC6 sampleLM 2
      rfl rfl rfl rfl (by norm_num) (by decide) (by decide)).2 (by decide)

theorem processOnEndReached_preserves (props : Props) (st : CoordState) :
    (processOnEndReached props st).trackerLastOffset = st.trackerLastOffset ∧
    (processOnEndReached props st).trackerVisible = st.trackerVisible ∧
    (processOnEndReached props st).trackerRequired = st.trackerRequired ∧
    (processOnEndReached props st).visibilityEmissions = st.visibilityEmissions ∧
    (processOnEndReached props st).layoutManager = st.layoutManager ∧
    (processOnEndReached props st).layout = st.layout ∧
    (processOnEndReached props st).paramsIsHorizontal = st.paramsIsHorizontal := by
  unfold processOnEndReached
  dsimp only
  repeat' split
  all_goals exact ⟨rfl, rfl, rfl, rfl, rfl, rfl, rfl⟩

theorem updateOffset_emissions (st : CoordState) (x y : ℤ) :
    (updateOffset st x y).visibilityEmissions =
      (if st.listenerAttached && !sameIndexSet
          (visibleIndices st.lmLayouts st.paramsIsHorizontal
            (if st.paramsIsHorizontal then x else y) (viewportExtent st))
          st.trackerVisible then
        st.visibilityEmissions ++
          [{ all := visibleIndices st.lmLayouts st.paramsIsHorizontal
               (if st.paramsIsHorizontal then x else y) (viewportExtent st),
             now := (visibleIndices st.lmLayouts st.paramsIsHorizontal
               (if st.paramsIsHorizontal then x else y) (viewportExtent st)).filter
                 (fun i => !st.trackerVisible.contains i),
             notNow := st.trackerVisible.filter
               (fun i => !(visibleIndices st.lmLayouts st.paramsIsHorizontal
                 (if st.paramsIsHorizontal then x else y) (viewportExtent st)).contains i) }]
      else st.visibilityEmissions) := rfl

/-- C7: every `_onScroll` updates the window state with the new offset along
the scroll axis and recomputes the required and visible index sets from the
Layout array; the attached visibility observer is invoked — with the three
ordered lists: all currently visible, newly visible, newly not-visible —
if and only if the new visible set differs, as a set, from the previous
one. -/
theorem onScroll_updates_and_notifies (props : Props) (st : CoordState) (x y : ℤ)
    (hl : st.listenerAttached = true) :
    (onScroll props st x y).trackerLastOffset =
      (if st.paramsIsHorizontal then x else y) ∧
    (onScroll props st x y).trackerVisible =
      visibleIndices st.lmLayouts st.paramsIsHorizontal
        (if st.paramsIsHorizontal then x else y) (viewportExtent st) ∧
    (onScroll props st x y).trackerRequired =
      requiredIndices st.lmLayouts st.paramsIsHorizontal
        (if st.paramsIsHorizontal then x else y) (viewportExtent st)
        st.paramsRenderAhead ∧
    ((onScroll props st x y).visibilityEmissions ≠ st.visibilityEmissions ↔
      sameIndexSet (visibleIndices st.lmLayouts st.paramsIsHorizontal
          (if st.paramsIsHorizontal then x else y) (viewportExtent st))
        st.trackerVisible = false) ∧
    (sameIndexSet (visibleIndices st.lmLayouts st.paramsIsHorizontal
          (if st.paramsIsHorizontal then x else y) (viewportExtent st))
        st.trackerVisible = false →
      (onScroll props st x y).visibilityEmissions = st.visibilityEmissions ++
        [{ all := visibleIndices st.lmLayouts st.paramsIsHorizontal
             (if st.paramsIsHorizontal then x else y) (viewportExtent st),
           now := (visibleIndices st.lmLayouts st.paramsIsHorizontal
             (if st.paramsIsHorizontal then x else y) (viewportExtent st)).filter
               (fun i => !st.trackerVisible.contains i),
           notNow := st.trackerVisible.filter
             (fun i => !(visibleIndices st.lmLayouts st.paramsIsHorizontal
               (if st.paramsIsHorizontal then x else y) (viewportExtent st)).contains i) }]) := by
  obtain ⟨p1, p2, p3, p4, _, _, _⟩ :=
    processOnEndReached_preserves props (updateOffset st x y)
  have hscroll : onScroll props st x y = processOnEndReached props (updateOffset st x y) := rfl
  rw [hscroll, p1, p2, p3, p4]
  refine ⟨rfl, rfl, rfl, ?_, ?_⟩
  · rw [updateOffset_emissions st x y, hl]
    by_cases hs : sameIndexSet (visibleIndices st.lmLayouts st.paramsIsHorizontal
        (if st.paramsIsHorizontal then x else y) (viewportExtent st))
        st.trackerVisible = false
    · rw [hs]
      simp only [Bool.not_false, Bool.and_self, if_true]
      constructor
      · intro _
        trivial
      · intro _
        intro hcontra
        have hlen := congrArg List.length hcontra
        simp at hlen
    · rw [Bool.not_eq_false] at hs
      rw [hs]
      simp only [Bool.not_true, Bool.and_false, if_false]
      constructor
      · intro hcontra
        exact absurd rfl hcontra
      · intro hfalse
        exact absurd hfalse (by simp)
  · intro hs
    rw [updateOffset_emissions st x y, hl, hs]
    simp only [Bool.not_false, Bool.and_self, if_true]

/-- Witness for `onScroll_updates_and_notifies`: scrolling to offset `0` over
the sample layouts makes rows `0` and `1` visible and emits one delta. -/
theorem onScroll_updates_and_notifies_witness :
    (onScroll sampleProps stC7 0 0).trackerLastOffset = 0 ∧
    (onScroll sampleProps stC7 0 0).trackerVisible = [0, 1] ∧
    (onScroll sampleProps stC7 0 0).visibilityEmissions =
      [{ all := [0, 1], now := [0, 1], notNow := [] }] := by
  obtain ⟨h1, h2, _, _, h5⟩ := onScroll_updates_and_notifies sampleProps stC7 0 0 rfl
  refine ⟨by rw [h1]; rfl, by rw [h2]; rfl, ?_⟩
  rw [h5 (by decide)]
  rfl

/-- C8 (counterexample to the claim as stated): the embedded debouncer is
not leading-edge — a single `_queueStateRefresh`-style request produces no
immediate execution, whereas the leading-edge debouncer described by the
spec executes it at the call. -/
theorem refreshRequestDebouncer_not_leading :
    (runDebounce refreshRequestDebouncer [.call 0]).runs = [] ∧
    (runDebounce (specLeadingDebounceStep 0) [.call 0]).runs = [0] := ⟨rfl, rfl⟩

theorem lodash_calls_fold (w : ℤ) (cs : List ℤ) :
    ∀ s : DebounceState, cs ≠ [] →
      ∃ d ∈ cs, (cs.map DebEvent.call).foldl (lodashDebounceStep w) s =
        { deadline := some (d + w), runs := s.runs } := by
  induction cs with
  | nil =>
    intro s h
    exact absurd rfl h
  | cons c rest ih =>
    intro s _
    rw [List.map_cons, List.foldl_cons]
    by_cases hr : rest = []
    · rw [hr]
      exact ⟨c, List.mem_singleton.mpr rfl, rfl⟩
    · obtain ⟨d, hd, hfold⟩ := ih (lodashDebounceStep w s (.call c)) hr
      exact ⟨d, List.mem_cons_of_mem _ hd, hfold⟩

/-- C8 (amended): the debounced state-refresh is a trailing-edge coalescing
timer with cancel-and-reschedule semantics: no request executes immediately;
every request (re)schedules the deadline to its own time plus the (zero)
wait, and a burst of requests produces exactly one execution, performed when
the timer fires after the last request of the burst. -/
theorem refreshRequestDebouncer_trailing (c : ℤ) (rest : List ℤ) (tEnd : ℤ)
    (hEnd : ∀ t ∈ c :: rest, t ≤ tEnd) :
    (runDebounce refreshRequestDebouncer
        ((c :: rest).map DebEvent.call ++ [.timer tEnd])).runs = [tEnd] ∧
    (∀ (s : DebounceState) (t : ℤ),
      (refreshRequestDebouncer s (.call t)).deadline = some (t + 0) ∧
      (refreshRequestDebouncer s (.call t)).runs = s.runs) := by
  constructor
  · unfold runDebounce
    rw [List.foldl_append]
    obtain ⟨d, hd, hfold⟩ :=
      lodash_calls_fold 0 (c :: rest) { deadline := none, runs := [] } (by simp)
    unfold refreshRequestDebouncer
    rw [hfold, List.foldl_cons, List.foldl_nil]
    have hle : d + 0 ≤ tEnd := by
      rw [add_zero]
      exact hEnd d hd
    simp only [lodashDebounceStep]
    rw [if_pos hle]
    rfl
  · intro s t
    exact ⟨rfl, rfl⟩

/-- Witness for `refreshRequestDebouncer_trailing`: a burst of calls at
times `0` and `0` followed by the timer at `0` runs the executable once. -/
theorem refreshRequestDebouncer_trailing_witness :
    (runDebounce refreshRequestDebouncer
        ((0 :: [0]).map DebEvent.call ++ [.timer 0])).runs = [0] ∧
    (refreshRequestDebouncer { deadline := none, runs := [] } (.call 5)).deadline =
      some (5 + 0) := by
  obtain ⟨h1, h2⟩ := refreshRequestDebouncer_trailing 0 [0] 0
    (by
      intro t ht
      rcases List.mem_cons.mp ht with h | h
      · rw [h]
      · rw [List.mem_singleton] at h
        rw [h])
  exact ⟨h1, (h2 { deadline := none, runs := [] } 5).1⟩

theorem updateOffset_preserves (st : CoordState) (x y : ℤ) :
    (updateOffset st x y).layoutManager = st.layoutManager ∧
    (updateOffset st x y).layout = st.layout ∧
    (updateOffset st x y).onEndReachedCalled = st.onEndReachedCalled ∧
    (updateOffset st x y).endReachedFires = st.endReachedFires ∧
    (updateOffset st x y).trackerLastOffset = (if st.paramsIsHorizontal then x else y) ∧
    (updateOffset st x y).paramsIsHorizontal = st.paramsIsHorizontal :=
  ⟨rfl, rfl, rfl, rfl, rfl, rfl⟩

theorem windowBoundS_updateOffset (props : Props) (st : CoordState) (x y : ℤ) :
    windowBoundS props (updateOffset st x y) = windowBoundS props st := rfl

theorem processOnEndReached_fires (props : Props) (st : CoordState)
    (hp : props.onEndReachedPresent = true)
    (hin : windowBoundS props st - st.trackerLastOffset ≤ props.onEndReachedThreshold)
    (hlatch : st.onEndReachedCalled = false) :
    (processOnEndReached props st).endReachedFires = st.endReachedFires + 1 ∧
    (processOnEndReached props st).onEndReachedCalled = true := by
  unfold windowBoundS at hin
  unfold processOnEndReached
  simp only [hp, eq_self_iff_true, if_true]
  rw [if_pos hin, hlatch]
  rw [if_pos (show ¬(false = true) from fun hc => Bool.noConfusion hc)]
  exact ⟨rfl, rfl⟩

theorem processOnEndReached_latched (props : Props) (st : CoordState)
    (hp : props.onEndReachedPresent = true)
    (hin : windowBoundS props st - st.trackerLastOffset ≤ props.onEndReachedThreshold)
    (hlatch : st.onEndReachedCalled = true) :
    (processOnEndReached props st).endReachedFires = st.endReachedFires ∧
    (processOnEndReached props st).onEndReachedCalled = true := by
  unfold windowBoundS at hin
  unfold processOnEndReached
  simp only [hp, eq_self_iff_true, if_true]
  rw [if_pos hin, hlatch]
  rw [if_neg (show ¬¬(true = true) from fun hc => hc rfl)]
  exact ⟨rfl, hlatch⟩

theorem processOnEndReached_out (props : Props) (st : CoordState)
    (hp : props.onEndReachedPresent = true)
    (hout : props.onEndReachedThreshold < windowBoundS props st - st.trackerLastOffset) :
    (processOnEndReached props st).endReachedFires = st.endReachedFires ∧
    (processOnEndReached props st).onEndReachedCalled = false := by
  unfold windowBoundS at hout
  unfold processOnEndReached
  simp only [hp, eq_self_iff_true, if_true]
  rw [if_neg (not_le.mpr hout)]
  exact ⟨rfl, rfl⟩

theorem onScroll_offset_dist (props : Props) (st : CoordState) (x y : ℤ)
    (hpar : st.paramsIsHorizontal = props.isHorizontal) :
    (updateOffset st x y).trackerLastOffset = primaryOf props (x, y) := by
  rw [(updateOffset_preserves st x y).2.2.2.2.1, hpar]
  rfl

theorem onScroll_paramsIsHorizontal (props : Props) (st : CoordState) (x y : ℤ) :
    (onScroll props st x y).paramsIsHorizontal = st.paramsIsHorizontal := by
  have h : onScroll props st x y = processOnEndReached props (updateOffset st x y) := rfl
  rw [h, (processOnEndReached_preserves props (updateOffset st x y)).2.2.2.2.2.2]
  rfl

theorem windowBoundS_onScroll (props : Props) (st : CoordState) (x y : ℤ) :
    windowBoundS props (onScroll props st x y) = windowBoundS props st := by
  have h : onScroll props st x y = processOnEndReached props (updateOffset st x y) := rfl
  obtain ⟨_, _, _, _, hlm, hlay, _⟩ :=
    processOnEndReached_preserves props (updateOffset st x y)
  rw [h]
  unfold windowBoundS layoutDimensionS
  rw [hlm, hlay]
  rfl

/-- C10: the `onEndReached` callback is latched through `_onEndReachedCalled`:
a scroll event observing an offset within the threshold of the content extent
fires the callback exactly once when the latch is clear, and sets the latch;
while the latch is set, further in-threshold events do not fire; an event
observing the offset strictly outside the threshold region resets the latch
without firing; and any burst of scroll events that all stay within the
threshold fires the callback at most once in total. -/
theorem endReached_latched (props : Props) (hp : props.onEndReachedPresent = true) :
    (∀ st : CoordState, ∀ x y : ℤ, st.paramsIsHorizontal = props.isHorizontal →
      windowBoundS props st - primaryOf props (x, y) ≤ props.onEndReachedThreshold →
      ((st.onEndReachedCalled = false →
          (onScroll props st x y).endReachedFires = st.endReachedFires + 1) ∧
       (st.onEndReachedCalled = true →
          (onScroll props st x y).endReachedFires = st.endReachedFires) ∧
       (onScroll props st x y).onEndReachedCalled = true)) ∧
    (∀ st : CoordState, ∀ x y : ℤ, st.paramsIsHorizontal = props.isHorizontal →
      props.onEndReachedThreshold < windowBoundS props st - primaryOf props (x, y) →
      (onScroll props st x y).endReachedFires = st.endReachedFires ∧
      (onScroll props st x y).onEndReachedCalled = false) ∧
    (∀ os : List (ℤ × ℤ), ∀ st : CoordState,
      st.paramsIsHorizontal = props.isHorizontal →
      (∀ o ∈ os, windowBoundS props st - primaryOf props o ≤ props.onEndReachedThreshold) →
      (scrollTrace props st os).endReachedFires ≤
        st.endReachedFires + (if st.onEndReachedCalled = true then 0 else 1)) := by
  have hon : ∀ (st : CoordState) (x y : ℤ),
      onScroll props st x y = processOnEndReached props (updateOffset st x y) :=
    fun _ _ _ => rfl
  have hstep : ∀ (st : CoordState) (x y : ℤ),
      st.paramsIsHorizontal = props.isHorizontal →
      windowBoundS props st - primaryOf props (x, y) ≤ props.onEndReachedThreshold →
      ((st.onEndReachedCalled = false →
          (onScroll props st x y).endReachedFires = st.endReachedFires + 1) ∧
       (st.onEndReachedCalled = true →
          (onScroll props st x y).endReachedFires = st.endReachedFires) ∧
       (onScroll props st x y).onEndReachedCalled = true) := by
    intro st x y hpar hin
    obtain ⟨_, _, hcall, hfires, _, _⟩ := updateOffset_preserves st x y
    have hin2 : windowBoundS props (updateOffset st x y) -
        (updateOffset st x y).trackerLastOffset ≤ props.onEndReachedThreshold := by
      rw [windowBoundS_updateOffset, onScroll_offset_dist props st x y hpar]
      exact hin
    refine ⟨?_, ?_, ?_⟩
    · intro hl
      rw [hon st x y]
      obtain ⟨hf, _⟩ := processOnEndReached_fires props (updateOffset st x y) hp hin2
        (by rw [hcall]; exact hl)
      rw [hf, hfires]
    · intro hl
      rw [hon st x y]
      obtain ⟨hf, _⟩ := processOnEndReached_latched props (updateOffset st x y) hp hin2
        (by rw [hcall]; exact hl)
      rw [hf, hfires]
    · rw [hon st x y]
      by_cases hl : st.onEndReachedCalled = true
      · exact (processOnEndReached_latched props (updateOffset st x y) hp hin2
          (by rw [hcall]; exact hl)).2
      · exact (processOnEndReached_fires props (updateOffset st x y) hp hin2
          (by rw [hcall]; exact Bool.not_eq_true _ ▸ eq_false_of_ne_true hl)).2
  refine ⟨hstep, ?_, ?_⟩
  · intro st x y hpar hout
    obtain ⟨_, _, hcall, hfires, _, _⟩ := updateOffset_preserves st x y
    have hout2 : props.onEndReachedThreshold <
        windowBoundS props (updateOffset st x y) -
          (updateOffset st x y).trackerLastOffset := by
      rw [windowBoundS_updateOffset, onScroll_offset_dist props st x y hpar]
      exact hout
    obtain ⟨hf, hc⟩ := processOnEndReached_out props (updateOffset st x y) hp hout2
    rw [hon st x y]
    exact ⟨by rw [hf, hfires], hc⟩
  · intro os
    induction os with
    | nil =>
      intro st _ _
      unfold scrollTrace
      rw [List.foldl_nil]
      split <;> omega
    | cons o os' ih =>
      intro st hpar hall
      have hone : scrollTrace props st (o :: os') =
          scrollTrace props (onScroll props st o.1 o.2) os' := by
        unfold scrollTrace
        rw [List.foldl_cons]
      rw [hone]
      have hin := hall o (List.mem_cons_self o os')
      obtain ⟨ha, hb, hc⟩ := hstep st o.1 o.2 hpar (by exact hin)
      have hpar2 : (onScroll props st o.1 o.2).paramsIsHorizontal = props.isHorizontal := by
        rw [onScroll_paramsIsHorizontal, hpar]
      have hall2 : ∀ o2 ∈ os', windowBoundS props (onScroll props st o.1 o.2) -
          primaryOf props o2 ≤ props.onEndReachedThreshold := by
        intro o2 ho2
        rw [windowBoundS_onScroll]
        exact hall o2 (List.mem_cons_of_mem _ ho2)
      have htail := ih (onScroll props st o.1 o.2) hpar2 hall2
      rw [hc] at htail
      by_cases hl : st.onEndReachedCalled = true
      · rw [hb hl] at htail
        rw [hl]
        simpa using htail
      · have hl2 : st.onEndReachedCalled = false := by
          rw [Bool.not_eq_true] at hl
          exact hl
        rw [ha hl2] at htail
        rw [hl2]
        simpa using htail

/-- Witness for `endReached_latched`: over the sample layouts (content extent
150, viewport 100, threshold 10) a scroll to offset 45 is within the
threshold region and fires the callback once, setting the latch. -/
theorem endReached_latched_witness :
    (onScroll propsC10 stC10 0 45).endReachedFires = stC10.endReachedFires + 1 ∧
    (onScroll propsC10 stC10 0 45).onEndReachedCalled = true ∧
    windowBoundS propsC10 stC10 - primaryOf propsC10 (0, 45) ≤
      propsC10.onEndReachedThreshold := by
  have hin : windowBoundS propsC10 stC10 - primaryOf propsC10 (0, 45) ≤
      propsC10.onEndReachedThreshold := by decide
  obtain ⟨part1, _, _⟩ := endReached_latched propsC10 rfl
  obtain ⟨a, _, c⟩ := part1 stC10 0 45 rfl hin
  exact ⟨a rfl, c, hin⟩

end Recycler
